import Mathlib

/-!
Verification of the audio notebook's core logic: the real-time tone-synthesis
callback with its chord-update queue, and the fade-in / fade-out envelope
functions.  Python floats are modelled as real numbers; numpy arrays as lists
of reals; the thread-safe FIFO queue as a list of pending chord codes
(front = oldest).
-/

/-! ### Chord dictionary

`chords_dict` is the notebook's dictionary after the note labels have been
resolved to frequencies via `note2freq` and the notes table.  The numeric
values are stored as rationals (the exact decimal literals) and cast to ℝ
where the synthesis uses them. -/

def chords_dict : List (String × List ℚ) :=
  [ ("C",  [130.81, 164.81, 196.00, 261.63, 329.63]),
    ("Cm", [130.81, 155.56, 196.00, 261.63, 311.13]),
    ("D",  [146.83, 185.00, 220.0, 293.66, 369.99]),
    ("Dm", [146.83, 174.61, 220.0, 293.66, 349.23]),
    ("E",  [82.41, 123.47, 207.65, 246.94, 329.63]),
    ("Em", [82.41, 123.47, 196.00, 246.94, 329.63]),
    ("F",  [174.61, 220.0, 261.63, 349.23, 440.0]),
    ("Fm", [174.61, 207.65, 261.63, 349.23, 415.30]),
    ("G",  [98.00, 123.47, 146.83, 196.00, 246.94]),
    ("Gm", [98.00, 116.54, 146.83, 196.00, 233.08]),
    ("A",  [110.0, 164.81, 220.0, 277.18, 440.0]),
    ("Am", [110.0, 164.81, 220.0, 261.63, 440.0]),
    ("B",  [123.47, 185.00, 246.94, 311.13, 369.99]),
    ("Bm", [123.47, 185.00, 246.94, 293.66, 369.99]) ]

/-- Frequencies of a chord code, as real numbers (`chords_dict[code]`). -/
noncomputable def chordFreqs (code : String) : Option (List ℝ) :=
  (chords_dict.lookup code).map (fun l => l.map (fun q => (q : ℝ)))

/-- `chords_dict.get(code, fallback)`: the chord's frequencies if the code is
known, otherwise the fallback list. -/
noncomputable def chordsGet (code : String) (fallback : List ℝ) : List ℝ :=
  match chordFreqs code with
  | some fs => fs
  | none => fallback

/-! ### The synthesis callback

State captured by the closure returned by `generate_callback`: the current
frequency list `freqs` (rebindable via `nonlocal`), the mutable attribute
`callback.counter`, and the pending chord codes in the queue. -/

structure SynthState where
  freqs : List ℝ
  counter : ℕ
  queue : List String

/-- The queue check at the top of `callback`: if a code is pending, take the
oldest one (`queue.get()`) and rebind `freqs` to
`chords_dict.get(code, freqs)`; otherwise leave the state as is. -/
noncomputable def consumeStep (s : SynthState) : SynthState :=
  match s.queue with
  | [] => s
  | code :: rest =>
      { freqs := chordsGet code s.freqs, counter := s.counter, queue := rest }

/-- One single-frequency contribution: the buffer
`amplitude * np.sin(2 * np.pi * f * t)` with
`t = (counter + np.arange(frames)) / sampling_rate`. -/
noncomputable def sineBuffer (amplitude rate f : ℝ) (counter frames : ℕ) :
    List ℝ :=
  (List.range frames).map
    (fun i => amplitude * Real.sin (2 * Real.pi * f * (((counter + i : ℕ) : ℝ) / rate)))

/-- `outdata[:] = 0`: the zero-initialised output buffer. -/
def zeroBuffer (frames : ℕ) : List ℝ := List.replicate frames 0

/-- Pointwise `outdata[:] += ...` of two equal-length buffers. -/
def addBuffers (a b : List ℝ) : List ℝ := List.zipWith (fun x y => x + y) a b

/-- The buffer-filling loop of `callback`: start from the zero buffer and add
the sine buffer of each frequency in turn. -/
noncomputable def callbackOut (amplitude rate : ℝ) (freqs : List ℝ)
    (counter frames : ℕ) : List ℝ :=
  freqs.foldl (fun buf f => addBuffers buf (sineBuffer amplitude rate f counter frames))
    (zeroBuffer frames)

/-- One invocation of `callback(outdata, frames, time, status)`: consume at
most one pending chord code, fill the buffer from the (possibly swapped)
frequency list at the current counter, then advance the counter by `frames`.
Returns the post-call state and the produced buffer. -/
noncomputable def callback (amplitude rate : ℝ) (frames : ℕ) (s : SynthState) :
    SynthState × List ℝ :=
  let s1 := consumeStep s
  (⟨s1.freqs, s1.counter + frames, s1.queue⟩,
   callbackOut amplitude rate s1.freqs s1.counter frames)

/-- `generate_callback`: builds the closure state with `callback.counter = 0`. -/
def generate_callback (freqs : List ℝ) (queue : List String) : SynthState :=
  ⟨freqs, 0, queue⟩

/-! ### Helper lemmas about the synthesis loop -/

lemma addBuffers_map_range (g h : ℕ → ℝ) (N : ℕ) :
    addBuffers ((List.range N).map g) ((List.range N).map h)
      = (List.range N).map (fun i => g i + h i) := by
  simp [addBuffers, List.zipWith_map_left, List.zipWith_map_right,
    List.zipWith_same]

lemma synthFold_eq (amplitude rate : ℝ) (c N : ℕ) :
    ∀ (F : List ℝ) (g : ℕ → ℝ),
      F.foldl (fun buf f => addBuffers buf (sineBuffer amplitude rate f c N))
          ((List.range N).map g)
        = (List.range N).map (fun i =>
            g i + (F.map (fun f =>
              amplitude * Real.sin (2 * Real.pi * f * (((c + i : ℕ) : ℝ) / rate)))).sum) := by
  intro F
  induction F with
  | nil => intro g; simp
  | cons f₀ F ih =>
      intro g
      rw [List.foldl_cons]
      have hsb : sineBuffer amplitude rate f₀ c N
          = (List.range N).map
              (fun i => amplitude * Real.sin (2 * Real.pi * f₀ * (((c + i : ℕ) : ℝ) / rate))) := rfl
      rw [hsb, addBuffers_map_range, ih]
      apply List.map_congr_left
      intro i _
      simp [add_assoc]

lemma zeroBuffer_eq_map (N : ℕ) :
    zeroBuffer N = (List.range N).map (fun _ => (0 : ℝ)) := by
  simp [zeroBuffer, List.map_const']

/-- Closed form of the buffer-filling loop: sample `i` is the sum over the
frequency list of the amplitude-scaled sines at time `(counter + i) / rate`. -/
lemma callbackOut_eq (amplitude rate : ℝ) (F : List ℝ) (c N : ℕ) :
    callbackOut amplitude rate F c N
      = (List.range N).map (fun i =>
          (F.map (fun f =>
            amplitude * Real.sin (2 * Real.pi * f * (((c + i : ℕ) : ℝ) / rate)))).sum) := by
  rw [callbackOut, zeroBuffer_eq_map, synthFold_eq]
  simp

lemma consumeStep_counter (s : SynthState) :
    (consumeStep s).counter = s.counter := by
  cases h : s.queue <;> simp [consumeStep, h]

/-! ### C1 -/

/-- C1: for every frequency set, amplitude, sample rate R > 0, phase counter
value and buffer length N, the synthesis callback produces exactly N samples,
and sample i equals the sum over the frequencies of
`A * sin(2*pi*f*(c+i)/R)` — the pointwise superposition of the individual
amplitude-scaled single-frequency sine buffers. -/
theorem callback_superposition (A R : ℝ) (F : List ℝ) (c N : ℕ)
    (hR : 0 < R) :
    (callback A R N ⟨F, c, []⟩).2.length = N ∧
    (callback A R N ⟨F, c, []⟩).2
      = (List.range N).map (fun i =>
          (F.map (fun f =>
            A * Real.sin (2 * Real.pi * f * (((c + i : ℕ) : ℝ) / R)))).sum) := by
  have hbuf : (callback A R N ⟨F, c, []⟩).2 = callbackOut A R F c N := rfl
  constructor
  · rw [hbuf, callbackOut_eq]; simp
  · rw [hbuf, callbackOut_eq]

/-- Witness for C1 at A = 1, R = 2, F = [440], c = 0, N = 1. -/
theorem callback_superposition_witness :
    (0 : ℝ) < 2 ∧
    ((callback 1 2 1 ⟨[440], 0, []⟩).2.length = 1 ∧
     (callback 1 2 1 ⟨[440], 0, []⟩).2
       = (List.range 1).map (fun i =>
           (([440] : List ℝ).map (fun f =>
             1 * Real.sin (2 * Real.pi * f * (((0 + i : ℕ) : ℝ) / 2)))).sum)) :=
  ⟨zero_lt_two, callback_superposition 1 2 [440] 0 1 zero_lt_two⟩

/-! ### C2 -/

/-- C2: after a buffer of length N the phase counter equals its previous
value plus exactly N.  Consequently (queue empty, so the frequency set is
unchanged) buffer k is evaluated at phases `2*pi*f*(c+i)/R` while every
sample of buffer k+1 is evaluated at the phase of buffer k's sample N-1 plus
`(i+1)` exact one-sample increments `2*pi*f*(1/R)` — in particular sample 0
of buffer k+1 differs from sample N-1 of buffer k by exactly one
sample-period phase increment per constituent frequency. -/
theorem callback_phase_continuity (A R : ℝ) (N : ℕ) (s : SynthState)
    (hR : 0 < R) (hN : 0 < N) (hq : s.queue = []) :
    (callback A R N s).1.counter = s.counter + N ∧
    (callback A R N s).2
      = (List.range N).map (fun i =>
          (s.freqs.map (fun f =>
            A * Real.sin (2 * Real.pi * f * (((s.counter + i : ℕ) : ℝ) / R)))).sum) ∧
    (callback A R N (callback A R N s).1).2
      = (List.range N).map (fun i =>
          (s.freqs.map (fun f =>
            A * Real.sin (2 * Real.pi * f * (((s.counter + (N - 1) : ℕ) : ℝ) / R)
              + 2 * Real.pi * f * (((i + 1 : ℕ) : ℝ) / R)))).sum) := by
  obtain ⟨F, c, q⟩ := s
  simp only at hq
  subst hq
  refine ⟨rfl, ?_, ?_⟩
  · have h1 : (callback A R N ⟨F, c, []⟩).2 = callbackOut A R F c N := rfl
    rw [h1, callbackOut_eq]
  · have h2 : (callback A R N (callback A R N ⟨F, c, []⟩).1).2
        = callbackOut A R F (c + N) N := rfl
    rw [h2, callbackOut_eq]
    apply List.map_congr_left
    intro i _
    congr 1
    apply List.map_congr_left
    intro f _
    congr 1
    have hcast : ((c + N + i : ℕ) : ℝ) = ((c + (N - 1) : ℕ) : ℝ) + ((i + 1 : ℕ) : ℝ) := by
      push_cast [Nat.cast_sub hN]
      ring
    rw [hcast, add_div, mul_add]

/-- Witness for C2 at A = 1, R = 2, N = 1, initial state ⟨[], 0, []⟩. -/
theorem callback_phase_continuity_witness :
    (0 : ℝ) < 2 ∧ 0 < 1 ∧ (⟨[], 0, []⟩ : SynthState).queue = [] ∧
    ((callback 1 2 1 ⟨[], 0, []⟩).1.counter = 0 + 1 ∧
     (callback 1 2 1 ⟨[], 0, []⟩).2
       = (List.range 1).map (fun i =>
           (([] : List ℝ).map (fun f =>
             1 * Real.sin (2 * Real.pi * f * (((0 + i : ℕ) : ℝ) / 2)))).sum) ∧
     (callback 1 2 1 (callback 1 2 1 ⟨[], 0, []⟩).1).2
       = (List.range 1).map (fun i =>
           (([] : List ℝ).map (fun f =>
             1 * Real.sin (2 * Real.pi * f * (((0 + (1 - 1) : ℕ) : ℝ) / 2)
               + 2 * Real.pi * f * (((i + 1 : ℕ) : ℝ) / 2)))).sum)) :=
  ⟨zero_lt_two, Nat.one_pos, rfl,
   callback_phase_continuity 1 2 1 ⟨[], 0, []⟩ zero_lt_two Nat.one_pos rfl⟩

/-! ### C3 -/

/-- C3: if the code consumed from the queue before a buffer is not in the
chord dictionary, the frequency set used for that buffer and retained
afterwards is exactly the previous one, and the callback still produces a
full-length buffer from it (the stream does not fail). -/
theorem callback_unknown_code (A R : ℝ) (N : ℕ) (s : SynthState)
    (code : String) (rest : List String)
    (hq : s.queue = code :: rest) (hcode : chords_dict.lookup code = none) :
    (callback A R N s).1.freqs = s.freqs ∧
    (callback A R N s).1.queue = rest ∧
    (callback A R N s).2 = callbackOut A R s.freqs s.counter N ∧
    (callback A R N s).2.length = N := by
  obtain ⟨F, c, q⟩ := s
  subst hq
  have hget : chordsGet code F = F := by
    simp [chordsGet, chordFreqs, hcode]
  refine ⟨?_, rfl, ?_, ?_⟩
  · show chordsGet code F = F
    exact hget
  · show callbackOut A R (chordsGet code F) c N = callbackOut A R F c N
    rw [hget]
  · show (callbackOut A R (chordsGet code F) c N).length = N
    rw [hget, callbackOut_eq]
    simp

/-- Witness for C3: posting the unknown code "Zz". -/
theorem callback_unknown_code_witness :
    (⟨[], 0, ["Zz"]⟩ : SynthState).queue = "Zz" :: [] ∧
    chords_dict.lookup "Zz" = none ∧
    ((callback 1 1 1 ⟨[], 0, ["Zz"]⟩).1.freqs = [] ∧
     (callback 1 1 1 ⟨[], 0, ["Zz"]⟩).1.queue = [] ∧
     (callback 1 1 1 ⟨[], 0, ["Zz"]⟩).2 = callbackOut 1 1 [] 0 1 ∧
     (callback 1 1 1 ⟨[], 0, ["Zz"]⟩).2.length = 1) :=
  ⟨rfl, rfl, callback_unknown_code 1 1 1 ⟨[], 0, ["Zz"]⟩ "Zz" [] rfl rfl⟩

/-! ### C4 -/

/-- C4 counterexample: posting "Am" then "Em" before any buffer and then
producing one buffer consumes the oldest code "Am": the frequency set
visible at that consumption is the Am chord, not the Em chord (the two
chords differ), and "Em" is still pending — refuting "only 'Em' (the
latest) being visible at the next consumption". -/
theorem callback_latest_not_visible :
    (callback 1 1 1 ⟨[], 0, ["Am", "Em"]⟩).1.queue = ["Em"] ∧
    (callback 1 1 1 ⟨[], 0, ["Am", "Em"]⟩).1.freqs = chordsGet "Am" [] ∧
    chordsGet "Am" [] ≠ chordsGet "Em" [] := by
  refine ⟨rfl, rfl, ?_⟩
  have hlAm : chords_dict.lookup "Am"
      = some [110.0, 164.81, 220.0, 261.63, 440.0] := by
    simp [chords_dict, List.lookup]
  have hlEm : chords_dict.lookup "Em"
      = some [82.41, 123.47, 196.00, 246.94, 329.63] := by
    simp [chords_dict, List.lookup]
  have hAm : chordsGet "Am" []
      = [((110.0 : ℚ) : ℝ), ((164.81 : ℚ) : ℝ), ((220.0 : ℚ) : ℝ),
         ((261.63 : ℚ) : ℝ), ((440.0 : ℚ) : ℝ)] := by
    simp [chordsGet, chordFreqs, hlAm]
  have hEm : chordsGet "Em" []
      = [((82.41 : ℚ) : ℝ), ((123.47 : ℚ) : ℝ), ((196.00 : ℚ) : ℝ),
         ((246.94 : ℚ) : ℝ), ((329.63 : ℚ) : ℝ)] := by
    simp [chordsGet, chordFreqs, hlEm]
  rw [hAm, hEm]
  intro h
  simp only [List.cons.injEq] at h
  have h110 : ((110.0 : ℚ) : ℝ) = ((82.41 : ℚ) : ℝ) := h.1
  norm_num at h110

/-- C4 amended: the consumer takes at most one pending code per buffer and it
takes the oldest queued code; posting "Am" then "Em" before any buffer
results in "Am" (the oldest) being consumed at the next buffer, with "Em"
still queued, and "Em" being consumed at the buffer after that. -/
theorem callback_consume_oldest (A R : ℝ) (N : ℕ) (s : SynthState) :
    (callback A R N s).1.queue = s.queue.tail ∧
    (callback A R N s).1.freqs
      = (match s.queue.head? with
         | none => s.freqs
         | some code => chordsGet code s.freqs) ∧
    (callback A R N ⟨s.freqs, s.counter, ["Am", "Em"]⟩).1.freqs
      = chordsGet "Am" s.freqs ∧
    (callback A R N ⟨s.freqs, s.counter, ["Am", "Em"]⟩).1.queue = ["Em"] ∧
    (callback A R N (callback A R N ⟨s.freqs, s.counter, ["Am", "Em"]⟩).1).1.freqs
      = chordsGet "Em" (chordsGet "Am" s.freqs) ∧
    (callback A R N (callback A R N ⟨s.freqs, s.counter, ["Am", "Em"]⟩).1).1.queue
      = [] := by
  obtain ⟨F, c, q⟩ := s
  refine ⟨?_, ?_, rfl, rfl, rfl, rfl⟩
  · cases q <;> rfl
  · cases q <;> rfl

/-! ### C6 -/

/-- C6: every output buffer is computed with exactly one frequency set — the
set retained after the (pre-generation) queue consumption: the emitted buffer
equals the synthesis loop run on that single set at the pre-call counter, and
every one of its samples is the superposition over that same set. -/
theorem callback_single_freq_set (A R : ℝ) (N : ℕ) (s : SynthState) :
    (callback A R N s).2
      = callbackOut A R ((callback A R N s).1.freqs) s.counter N ∧
    (callback A R N s).2
      = (List.range N).map (fun i =>
          (((callback A R N s).1.freqs).map (fun f =>
            A * Real.sin (2 * Real.pi * f * (((s.counter + i : ℕ) : ℝ) / R)))).sum) := by
  have h1 : (callback A R N s).2
      = callbackOut A R ((callback A R N s).1.freqs) ((consumeStep s).counter) N := rfl
  constructor
  · rw [h1, consumeStep_counter]
  · rw [h1, consumeStep_counter, callbackOut_eq]

/-! ### C7 -/

/-- C7: a restarted stream uses a freshly generated callback, whose phase
counter is 0; hence the first buffer of the restarted stream is evaluated
from time 0 (sample i at time i/R, whatever the active frequency set). -/
theorem restart_resets_counter (A R : ℝ) (F : List ℝ) (q : List String)
    (N : ℕ) :
    (generate_callback F q).counter = 0 ∧
    (callback A R N (generate_callback F q)).2
      = (List.range N).map (fun (i : ℕ) =>
          (((callback A R N (generate_callback F q)).1.freqs).map (fun f =>
            A * Real.sin (2 * Real.pi * f * ((i : ℝ) / R)))).sum) := by
  constructor
  · rfl
  · have h1 : (callback A R N (generate_callback F q)).2
        = callbackOut A R ((callback A R N (generate_callback F q)).1.freqs)
            ((consumeStep (generate_callback F q)).counter) N := rfl
    have h0 : (consumeStep (generate_callback F q)).counter = 0 := by
      rw [consumeStep_counter]; rfl
    rw [h1, h0, callbackOut_eq]
    simp

/-! ### Fade effects

`fade_in` / `fade_out` from the notebook.  Python exceptions are modelled by
`PyResult`: `valueError` for an explicit `raise ValueError(...)` and for
numpy's in-place broadcast failure, `unboundLocalError` for referencing the
local `fade` when no branch assigned it. -/

inductive PyResult (α : Type) where
  | ok : α → PyResult α
  | valueError : String → PyResult α
  | unboundLocalError : PyResult α

/-- `int(sampling_rate * duration)` (truncation; the notebook only uses
nonnegative products, where truncation is the floor). -/
noncomputable def numSamples (rate duration : ℝ) : ℕ := ⌊rate * duration⌋₊

/-- `np.linspace(0, duration, num, endpoint=False)`:
`t_i = i * duration / num` for `i < num`. -/
noncomputable def linspace (duration : ℝ) (num : ℕ) : List ℝ :=
  (List.range num).map (fun (i : ℕ) => duration * (i : ℝ) / (num : ℝ))

/-- The `fade` vector built by `fade_in`'s `if/elif/else` chain; `none` is the
`else: raise ValueError(...)` branch. -/
noncomputable def fadeInVec (t : List ℝ) (duration : ℝ) (mode : String) :
    Option (List ℝ) :=
  if mode = "linear" then some (t.map (fun x => x / duration))
  else if mode = "sine" then
    some (t.map (fun x => Real.sin (2 * Real.pi * x * 0.25 / duration)))
  else if mode = "sine-squared" then
    some (t.map (fun x => Real.sin (2 * Real.pi * x * 0.25 / duration) ^ 2))
  else none

/-- The `fade` vector built by `fade_out`'s `if/elif` chain.  The source has
no `else` branch, so `none` stands for `fade` never being assigned (its later
use raises `UnboundLocalError`). -/
noncomputable def fadeOutVec (t : List ℝ) (duration : ℝ) (mode : String) :
    Option (List ℝ) :=
  if mode = "linear" then some (t.map (fun x => 1 - x / duration))
  else if mode = "sine" then
    some (t.map (fun x => Real.cos (2 * Real.pi * x * 0.25 / duration)))
  else if mode = "sine-squared" then
    some (t.map (fun x => Real.cos (2 * Real.pi * x * 0.25 / duration) ^ 2))
  else none

/-- numpy in-place elementwise multiply `lhs *= rhs`: allowed when the
right side has the same length, or length 1 (scalar broadcast); any other
shape combination raises a broadcast `ValueError`. -/
noncomputable def mulBroadcast (lhs rhs : List ℝ) : Option (List ℝ) :=
  if rhs.length = lhs.length then some (List.zipWith (fun x y => x * y) lhs rhs)
  else if rhs.length = 1 then some (lhs.map (fun x => x * rhs.headI))
  else none

/-- The Python slice `a[-n:]` for `n ≥ 0`: for `n = 0` it is `a[0:]`, the
whole array, not an empty selection. -/
def pyNegTail (n : ℕ) (a : List ℝ) : List ℝ :=
  if n = 0 then a else a.drop (a.length - n)

/-- `fade_in(data, duration, sampling_rate, mode)`: build the fade vector,
copy the data, scale the first `n = min(len(fade), len(data))` samples in
place, return the copy. -/
noncomputable def fade_in (data : List ℝ) (duration rate : ℝ) (mode : String) :
    PyResult (List ℝ) :=
  match fadeInVec (linspace duration (numSamples rate duration)) duration mode with
  | none =>
      PyResult.valueError "Invalid mode. Options: 'linear', 'sine', 'sine-squared'"
  | some fade =>
      match mulBroadcast (data.take (min fade.length data.length))
          (fade.take (min fade.length data.length)) with
      | none => PyResult.valueError "operands could not be broadcast together"
      | some r => PyResult.ok (r ++ data.drop (min fade.length data.length))

/-- `fade_out(data, duration, sampling_rate, mode)`: as `fade_in` but scaling
the slice `data[-n:]` by `fade[-n:]`. -/
noncomputable def fade_out (data : List ℝ) (duration rate : ℝ) (mode : String) :
    PyResult (List ℝ) :=
  match fadeOutVec (linspace duration (numSamples rate duration)) duration mode with
  | none => PyResult.unboundLocalError
  | some fade =>
      match mulBroadcast (pyNegTail (min fade.length data.length) data)
          (pyNegTail (min fade.length data.length) fade) with
      | none => PyResult.valueError "operands could not be broadcast together"
      | some r =>
          PyResult.ok (data.take
            (data.length - (pyNegTail (min fade.length data.length) data).length) ++ r)

/-! ### Store-level fades (aliasing / frame effects)

To talk about mutation of the caller's array, arrays live in a store
(addressed by position); `data.copy()` allocates a fresh cell and the
in-place multiply writes only to that fresh cell. -/

def alloc (σ : List (List ℝ)) (a : List ℝ) : List (List ℝ) × ℕ :=
  (σ ++ [a], σ.length)

/-- `fade_in` acting on array reference `i` of store `σ`.  Returns the store
after the call together with the result (the reference to the freshly
allocated copy, or the exception). -/
noncomputable def fade_in_prog (σ : List (List ℝ)) (i : ℕ) (duration rate : ℝ)
    (mode : String) : List (List ℝ) × PyResult ℕ :=
  match σ[i]? with
  | none => (σ, PyResult.valueError "invalid array reference")
  | some data =>
      match fadeInVec (linspace duration (numSamples rate duration)) duration mode with
      | none =>
          (σ, PyResult.valueError "Invalid mode. Options: 'linear', 'sine', 'sine-squared'")
      | some fade =>
          match mulBroadcast (data.take (min fade.length data.length))
              (fade.take (min fade.length data.length)) with
          | none =>
              ((alloc σ data).1,
               PyResult.valueError "operands could not be broadcast together")
          | some r =>
              ((alloc σ data).1.set (alloc σ data).2
                 (r ++ data.drop (min fade.length data.length)),
               PyResult.ok (alloc σ data).2)

/-- `fade_out` acting on array reference `i` of store `σ`.  Note that the
copy is allocated before `fade` is first referenced, so the copy exists even
on the `UnboundLocalError` path. -/
noncomputable def fade_out_prog (σ : List (List ℝ)) (i : ℕ) (duration rate : ℝ)
    (mode : String) : List (List ℝ) × PyResult ℕ :=
  match σ[i]? with
  | none => (σ, PyResult.valueError "invalid array reference")
  | some data =>
      match fadeOutVec (linspace duration (numSamples rate duration)) duration mode with
      | none => ((alloc σ data).1, PyResult.unboundLocalError)
      | some fade =>
          match mulBroadcast (pyNegTail (min fade.length data.length) data)
              (pyNegTail (min fade.length data.length) fade) with
          | none =>
              ((alloc σ data).1,
               PyResult.valueError "operands could not be broadcast together")
          | some r =>
              ((alloc σ data).1.set (alloc σ data).2
                 (data.take
                   (data.length - (pyNegTail (min fade.length data.length) data).length) ++ r),
               PyResult.ok (alloc σ data).2)

/-! ### Helper lemmas about the fades -/

lemma mulBroadcast_same (a b : List ℝ) (h : b.length = a.length) :
    mulBroadcast a b = some (List.zipWith (fun x y => x * y) a b) := by
  simp [mulBroadcast, h]

lemma fade_in_ok (data fade : List ℝ) (d rate : ℝ) (mode : String)
    (hf : fadeInVec (linspace d (numSamples rate d)) d mode = some fade) :
    fade_in data d rate mode
      = PyResult.ok (List.zipWith (fun x y => x * y)
          (data.take (min fade.length data.length))
          (fade.take (min fade.length data.length))
          ++ data.drop (min fade.length data.length)) := by
  have h1 : (data.take (min fade.length data.length)).length
      = min fade.length data.length := by
    rw [List.length_take]; omega
  have h2 : (fade.take (min fade.length data.length)).length
      = min fade.length data.length := by
    rw [List.length_take]; omega
  simp only [fade_in, hf]
  rw [mulBroadcast_same _ _ (h2.trans h1.symm)]

lemma fade_out_ok (data fade : List ℝ) (d rate : ℝ) (mode : String)
    (hf : fadeOutVec (linspace d (numSamples rate d)) d mode = some fade)
    (hn : 1 ≤ min fade.length data.length) :
    fade_out data d rate mode
      = PyResult.ok (data.take (data.length - min fade.length data.length)
          ++ List.zipWith (fun x y => x * y)
               (data.drop (data.length - min fade.length data.length))
               (fade.drop (fade.length - min fade.length data.length))) := by
  have hne : min fade.length data.length ≠ 0 := by omega
  have hd : pyNegTail (min fade.length data.length) data
      = data.drop (data.length - min fade.length data.length) := by
    simp [pyNegTail, hne]
  have hfa : pyNegTail (min fade.length data.length) fade
      = fade.drop (fade.length - min fade.length data.length) := by
    simp [pyNegTail, hne]
  have hl1 : (data.drop (data.length - min fade.length data.length)).length
      = min fade.length data.length := by
    rw [List.length_drop]; omega
  have hl2 : (fade.drop (fade.length - min fade.length data.length)).length
      = min fade.length data.length := by
    rw [List.length_drop]; omega
  simp only [fade_out, hf]
  rw [hd, hfa, mulBroadcast_same _ _ (hl2.trans hl1.symm), hl1]

lemma set_append_last (σ : List (List ℝ)) (a v : List ℝ) :
    (σ ++ [a]).set σ.length v = σ ++ [v] := by
  induction σ with
  | nil => rfl
  | cons x xs ih => simp [List.set, ih]

/-! ### C8 -/

/-- C8 (evaluation at the failing input): for the invalid mode string
"cubic", `fade_in` fails fast with the descriptive ValueError naming the
valid options, but `fade_out` — whose `if/elif` chain has no `else` branch —
fails with an unbound-local error on `fade` instead of a descriptive error. -/
theorem fade_mode_error_eval :
    fade_in [(1 : ℝ)] 1 1 "cubic"
      = PyResult.valueError "Invalid mode. Options: 'linear', 'sine', 'sine-squared'" ∧
    fade_out [(1 : ℝ)] 1 1 "cubic" = PyResult.unboundLocalError := by
  have hin : fadeInVec (linspace 1 (numSamples 1 1)) 1 "cubic" = none := by
    simp [fadeInVec]
  have hout : fadeOutVec (linspace 1 (numSamples 1 1)) 1 "cubic" = none := by
    simp [fadeOutVec]
  constructor
  · simp only [fade_in, hin]
  · simp only [fade_out, hout]

/-! ### C10 -/

/-- C10 counterexample: `fade_out` applied to the empty input array (with a
2-sample fade) raises a numpy broadcast ValueError instead of returning a
well-defined result: `n = min(len(fade), len(data)) = 0`, so `data[-0:]` is
the whole (empty) array while `fade[-0:]` is the whole 2-element fade
vector, and the in-place multiply rejects the shapes. -/
theorem fade_out_empty_error :
    fade_out ([] : List ℝ) 1 2 "linear"
      = PyResult.valueError "operands could not be broadcast together" := by
  have hK : numSamples 2 1 = 2 := by
    norm_num [numSamples]
  have hv : fadeOutVec (linspace 1 (numSamples 2 1)) 1 "linear"
      = some ((linspace 1 (numSamples 2 1)).map (fun x => 1 - x / 1)) := by
    simp [fadeOutVec]
  have hlen : ((linspace 1 (numSamples 2 1)).map (fun x => 1 - x / 1)).length = 2 := by
    simp [linspace, hK]
  have hlin : (linspace 1 (numSamples 2 1)).length = 2 := by
    simp [linspace, hK]
  have h0 : linspace 1 (numSamples 2 1) ≠ [] := by
    intro h
    rw [h] at hlin
    simp at hlin
  have hmb : mulBroadcast ([] : List ℝ)
      ((linspace 1 (numSamples 2 1)).map (fun x => 1 - x / 1)) = none := by
    simp [mulBroadcast, hlen, hlin, h0]
  simp only [fade_out, hv, List.length_nil, Nat.min_zero]
  rw [show pyNegTail 0 ([] : List ℝ) = [] from rfl,
    show pyNegTail 0 ((linspace 1 (numSamples 2 1)).map (fun x => 1 - x / 1))
      = (linspace 1 (numSamples 2 1)).map (fun x => 1 - x / 1) from rfl, hmb]

/-- C10 corrected: for every input array and valid mode, `fade_in` scales
exactly the first `n = min(fade_length, data_length)` samples and leaves all
later samples equal to the input (total, no out-of-bounds access, even when
the fade duration exceeds the signal length); `fade_out` does the same on
the last `n` samples and leaves all earlier samples equal to the input,
provided `n ≥ 1` (for `n = 0` the negative-index slice `data[-0:]` selects
the whole array and the operation can fail, see the counterexample). -/
theorem fade_scales_only_window (data : List ℝ) (d rate : ℝ) (mode : String)
    (fi fo : List ℝ)
    (hfi : fadeInVec (linspace d (numSamples rate d)) d mode = some fi)
    (hfo : fadeOutVec (linspace d (numSamples rate d)) d mode = some fo) :
    fade_in data d rate mode
      = PyResult.ok (List.zipWith (fun x y => x * y)
          (data.take (min fi.length data.length))
          (fi.take (min fi.length data.length))
          ++ data.drop (min fi.length data.length)) ∧
    (1 ≤ min fo.length data.length →
      fade_out data d rate mode
        = PyResult.ok (data.take (data.length - min fo.length data.length)
            ++ List.zipWith (fun x y => x * y)
                 (data.drop (data.length - min fo.length data.length))
                 (fo.drop (fo.length - min fo.length data.length)))) :=
  ⟨fade_in_ok data fi d rate mode hfi,
   fun hn => fade_out_ok data fo d rate mode hfo hn⟩

/-- Witness for C10: one-sample input [1], duration 1, rate 1, linear mode
(one-sample fade window, so the fade_out side condition holds). -/
theorem fade_scales_only_window_witness :
    fadeInVec (linspace 1 (numSamples 1 1)) 1 "linear"
      = some ((linspace 1 (numSamples 1 1)).map (fun x => x / 1)) ∧
    fadeOutVec (linspace 1 (numSamples 1 1)) 1 "linear"
      = some ((linspace 1 (numSamples 1 1)).map (fun x => 1 - x / 1)) ∧
    1 ≤ min ((linspace 1 (numSamples 1 1)).map (fun x => 1 - x / 1)).length
          [(1 : ℝ)].length ∧
    (fade_in [(1 : ℝ)] 1 1 "linear"
      = PyResult.ok (List.zipWith (fun x y => x * y)
          ([(1 : ℝ)].take (min ((linspace 1 (numSamples 1 1)).map (fun x => x / 1)).length
              [(1 : ℝ)].length))
          (((linspace 1 (numSamples 1 1)).map (fun x => x / 1)).take
            (min ((linspace 1 (numSamples 1 1)).map (fun x => x / 1)).length
              [(1 : ℝ)].length))
          ++ [(1 : ℝ)].drop (min ((linspace 1 (numSamples 1 1)).map (fun x => x / 1)).length
              [(1 : ℝ)].length)) ∧
     (1 ≤ min ((linspace 1 (numSamples 1 1)).map (fun x => 1 - x / 1)).length
          [(1 : ℝ)].length →
       fade_out [(1 : ℝ)] 1 1 "linear"
         = PyResult.ok ([(1 : ℝ)].take ([(1 : ℝ)].length
               - min ((linspace 1 (numSamples 1 1)).map (fun x => 1 - x / 1)).length
                   [(1 : ℝ)].length)
             ++ List.zipWith (fun x y => x * y)
                  ([(1 : ℝ)].drop ([(1 : ℝ)].length
                    - min ((linspace 1 (numSamples 1 1)).map (fun x => 1 - x / 1)).length
                        [(1 : ℝ)].length))
                  (((linspace 1 (numSamples 1 1)).map (fun x => 1 - x / 1)).drop
                    (((linspace 1 (numSamples 1 1)).map (fun x => 1 - x / 1)).length
                      - min ((linspace 1 (numSamples 1 1)).map (fun x => 1 - x / 1)).length
                          [(1 : ℝ)].length))))) :=
  ⟨by simp [fadeInVec], by simp [fadeOutVec],
   by simp [linspace, numSamples],
   fade_scales_only_window [(1 : ℝ)] 1 1 "linear"
     ((linspace 1 (numSamples 1 1)).map (fun x => x / 1))
     ((linspace 1 (numSamples 1 1)).map (fun x => 1 - x / 1))
     (by simp [fadeInVec]) (by simp [fadeOutVec])⟩

/-! ### C9 -/

/-- C9 counterexample: with the caller's array empty (and a 2-sample fade),
`fade_out` raises a broadcast ValueError and returns no array reference at
all — refuting "for every input array and valid mode, fade_out returns a
freshly allocated array of the same length as the input". -/
theorem fade_out_prog_no_return :
    (fade_out_prog [([] : List ℝ)] 0 1 2 "linear").2
      = PyResult.valueError "operands could not be broadcast together" := by
  have hK : numSamples 2 1 = 2 := by
    norm_num [numSamples]
  have hv : fadeOutVec (linspace 1 (numSamples 2 1)) 1 "linear"
      = some ((linspace 1 (numSamples 2 1)).map (fun x => 1 - x / 1)) := by
    simp [fadeOutVec]
  have hlen : ((linspace 1 (numSamples 2 1)).map (fun x => 1 - x / 1)).length = 2 := by
    simp [linspace, hK]
  have hlin : (linspace 1 (numSamples 2 1)).length = 2 := by
    simp [linspace, hK]
  have h0 : linspace 1 (numSamples 2 1) ≠ [] := by
    intro h
    rw [h] at hlin
    simp at hlin
  have hmb : mulBroadcast ([] : List ℝ)
      ((linspace 1 (numSamples 2 1)).map (fun x => 1 - x / 1)) = none := by
    simp [mulBroadcast, hlen, hlin, h0]
  have hi : ([([] : List ℝ)])[(0 : ℕ)]? = some [] := rfl
  simp only [fade_out_prog, hi, hv, List.length_nil, Nat.min_zero]
  rw [show pyNegTail 0 ([] : List ℝ) = [] from rfl,
    show pyNegTail 0 ((linspace 1 (numSamples 2 1)).map (fun x => 1 - x / 1))
      = (linspace 1 (numSamples 2 1)).map (fun x => 1 - x / 1) from rfl, hmb]

/-- C9 corrected: for every valid array reference and valid mode, `fade_in`
returns a reference to a freshly allocated array (distinct from the input's)
of the same length and leaves the caller's array unchanged; `fade_out` never
modifies the caller's array either (in every outcome), and whenever the fade
window `n = min(fade_length, data_length)` is at least 1 it likewise returns
a fresh same-length array. -/
theorem fade_prog_frame (σ : List (List ℝ)) (i : ℕ) (data : List ℝ)
    (d rate : ℝ) (mode : String) (fi fo : List ℝ)
    (hi : σ[i]? = some data)
    (hfi : fadeInVec (linspace d (numSamples rate d)) d mode = some fi)
    (hfo : fadeOutVec (linspace d (numSamples rate d)) d mode = some fo) :
    (∃ out : List ℝ,
       fade_in_prog σ i d rate mode = (σ ++ [out], PyResult.ok σ.length) ∧
       out.length = data.length ∧ σ.length ≠ i ∧
       (σ ++ [out])[i]? = some data) ∧
    (fade_out_prog σ i d rate mode).1[i]? = some data ∧
    (1 ≤ min fo.length data.length →
      ∃ out : List ℝ,
        fade_out_prog σ i d rate mode = (σ ++ [out], PyResult.ok σ.length) ∧
        out.length = data.length ∧ σ.length ≠ i ∧
        (σ ++ [out])[i]? = some data) := by
  have hilt : i < σ.length := by
    by_contra h
    rw [List.getElem?_eq_none (Nat.le_of_not_lt h)] at hi
    exact Option.noConfusion hi
  have hne : σ.length ≠ i := Nat.ne_of_gt hilt
  have happ : ∀ out : List ℝ, (σ ++ [out])[i]? = some data := by
    intro out
    rw [List.getElem?_append_left hilt]
    exact hi
  refine ⟨?_, ?_, ?_⟩
  · -- fade_in: always returns a fresh same-length array
    have h1 : (data.take (min fi.length data.length)).length
        = min fi.length data.length := by
      rw [List.length_take]; omega
    have h2 : (fi.take (min fi.length data.length)).length
        = min fi.length data.length := by
      rw [List.length_take]; omega
    refine ⟨List.zipWith (fun x y => x * y)
        (data.take (min fi.length data.length))
        (fi.take (min fi.length data.length))
        ++ data.drop (min fi.length data.length), ?_, ?_, hne, happ _⟩
    · simp only [fade_in_prog, hi, hfi,
        mulBroadcast_same _ _ (h2.trans h1.symm), alloc]
      rw [set_append_last]
    · rw [List.length_append, List.length_zipWith, h1, h2, List.length_drop]
      omega
  · -- fade_out: the caller's array is unchanged in every outcome
    simp only [fade_out_prog, hi, hfo]
    cases hmb : mulBroadcast (pyNegTail (min fo.length data.length) data)
        (pyNegTail (min fo.length data.length) fo) with
    | none =>
        simp only [alloc]
        rw [List.getElem?_append_left hilt]
        exact hi
    | some r =>
        simp only [alloc]
        rw [set_append_last, List.getElem?_append_left hilt]
        exact hi
  · -- fade_out with a nonempty fade window returns a fresh array
    intro hn
    have hne0 : min fo.length data.length ≠ 0 := by omega
    have hd : pyNegTail (min fo.length data.length) data
        = data.drop (data.length - min fo.length data.length) := by
      simp [pyNegTail, hne0]
    have hfa : pyNegTail (min fo.length data.length) fo
        = fo.drop (fo.length - min fo.length data.length) := by
      simp [pyNegTail, hne0]
    have hl1 : (data.drop (data.length - min fo.length data.length)).length
        = min fo.length data.length := by
      rw [List.length_drop]; omega
    have hl2 : (fo.drop (fo.length - min fo.length data.length)).length
        = min fo.length data.length := by
      rw [List.length_drop]; omega
    refine ⟨data.take (data.length - min fo.length data.length)
        ++ List.zipWith (fun x y => x * y)
             (data.drop (data.length - min fo.length data.length))
             (fo.drop (fo.length - min fo.length data.length)), ?_, ?_, hne, happ _⟩
    · simp only [fade_out_prog, hi, hfo, hd, hfa,
        mulBroadcast_same _ _ (hl2.trans hl1.symm), alloc, hl1]
      rw [set_append_last]
    · rw [List.length_append, List.length_take, List.length_zipWith, hl1, hl2]
      omega

/-- Witness for C9: store holding the single one-sample array [1], linear
mode, duration 1, rate 1. -/
theorem fade_prog_frame_witness :
    ([[(1 : ℝ)]])[(0 : ℕ)]? = some [(1 : ℝ)] ∧
    fadeInVec (linspace 1 (numSamples 1 1)) 1 "linear"
      = some ((linspace 1 (numSamples 1 1)).map (fun x => x / 1)) ∧
    fadeOutVec (linspace 1 (numSamples 1 1)) 1 "linear"
      = some ((linspace 1 (numSamples 1 1)).map (fun x => 1 - x / 1)) ∧
    ((∃ out : List ℝ,
        fade_in_prog [[(1 : ℝ)]] 0 1 1 "linear"
          = ([[(1 : ℝ)]] ++ [out], PyResult.ok ([[(1 : ℝ)]] : List (List ℝ)).length) ∧
        out.length = [(1 : ℝ)].length ∧ ([[(1 : ℝ)]] : List (List ℝ)).length ≠ 0 ∧
        ([[(1 : ℝ)]] ++ [out])[(0 : ℕ)]? = some [(1 : ℝ)]) ∧
     (fade_out_prog [[(1 : ℝ)]] 0 1 1 "linear").1[(0 : ℕ)]? = some [(1 : ℝ)] ∧
     (1 ≤ min ((linspace 1 (numSamples 1 1)).map (fun x => 1 - x / 1)).length
          [(1 : ℝ)].length →
       ∃ out : List ℝ,
         fade_out_prog [[(1 : ℝ)]] 0 1 1 "linear"
           = ([[(1 : ℝ)]] ++ [out], PyResult.ok ([[(1 : ℝ)]] : List (List ℝ)).length) ∧
         out.length = [(1 : ℝ)].length ∧ ([[(1 : ℝ)]] : List (List ℝ)).length ≠ 0 ∧
         ([[(1 : ℝ)]] ++ [out])[(0 : ℕ)]? = some [(1 : ℝ)])) :=
  ⟨rfl, by simp [fadeInVec], by simp [fadeOutVec],
   fade_prog_frame [[(1 : ℝ)]] 0 [(1 : ℝ)] 1 1 "linear"
     ((linspace 1 (numSamples 1 1)).map (fun x => x / 1))
     ((linspace 1 (numSamples 1 1)).map (fun x => 1 - x / 1))
     rfl (by simp [fadeInVec]) (by simp [fadeOutVec])⟩
